import Mathlib

/-!
Verification development for the open-science paper-downloader pipeline.

The Python source under `downloader/` is shallowly embedded here:
  * Python `str` values are modelled as `String` (with the character-list
    `List Char` view used for the primitive operations),
  * Python `bytes` values are modelled as `List Nat` (one entry per byte),
  * Python `set[str]` values are modelled as `Finset String`,
  * the network and the filesystem are modelled as explicit oracle
    parameters: the HTTP exchange of an adapter is a value of an inductive type
    describing what the exchange produced, and the file written at the
    single target path of a fetch is returned as an `Option (List Nat)`.

Embedded functions keep the names of their Python sources (leading
underscores dropped).  Dictionary results keep the keys the claims refer
to (`success`, `error`, `doi`); artifact-metadata keys (titles, authors,
file paths) play no role in any claim and are not modelled.
-/

/-! ### Generic scanning helpers (Python `startswith` / `in` on sequences) -/

/-- Function `listStartsWith p l` decides whether `p` is an initial segment of `l`,
the way the Python `startswith` method scans from the left. -/
def listStartsWith {α : Type} [DecidableEq α] : List α → List α → Bool
  | [], _ => true
  | _ :: _, [] => false
  | a :: p, b :: l => if a = b then listStartsWith p l else false

/-- Function `listContains p l` decides whether `p` occurs contiguously inside `l`,
the way the Python `in` operator scans a string or bytes object. -/
def listContains {α : Type} [DecidableEq α] (p : List α) : List α → Bool
  | [] => listStartsWith p []
  | b :: l => listStartsWith p (b :: l) || listContains p l

/-! ### Python string primitives -/

/-- The characters `str.strip()` removes (Python whitespace). -/
def isPySpace (c : Char) : Bool :=
  c = ' ' || c = '\t' || c = '\n' || c = '\r' || c = Char.ofNat 11 || c = Char.ofNat 12

/-- Remove the longest run of characters satisfying `f` from the back. -/
def stripTrail {α : Type} (f : α → Bool) (l : List α) : List α :=
  (l.reverse.dropWhile f).reverse

/-- Python `str.strip(chars)`: drop characters satisfying `f` from both ends. -/
def pyStripIf (f : Char → Bool) (l : List Char) : List Char :=
  stripTrail f (l.dropWhile f)

/-- Python `str.strip()` on the character-list view. -/
def pyStripL (l : List Char) : List Char :=
  pyStripIf isPySpace l

/-- Python `str.strip()` at the `String` level. -/
def pyStrip (s : String) : String :=
  ⟨pyStripL s.toList⟩

/-- The quote characters stripped by `normalize_doi` (single and double quote). -/
def isQuoteChar (c : Char) : Bool :=
  c = Char.ofNat 39 || c = '"'

/-! ### Identifier normalizer (`downloader/utils/validation.py`, `normalize_doi`) -/

/-- The resolver prefixes tried in order by `normalize_doi`; exactly the
literal strings of the source, no case folding. -/
def resolverPrefixes : List (List Char) :=
  ["doi:", "DOI:", "https://doi.org/", "http://dx.doi.org/"].map String.toList

/-- Strip the first prefix of `ps` that matches, then stop (the source loop
does `break` after the first hit). -/
def stripFirstPrefixOf : List (List Char) → List Char → List Char
  | [], l => l
  | p :: ps, l => if listStartsWith p l then l.drop p.length else stripFirstPrefixOf ps l

/-- Embedding of `normalize_doi` on the character-list view: strip whitespace, strip the
first matching resolver prefix, then strip surrounding quotes. -/
def normalizeDoiL (l : List Char) : List Char :=
  if l = [] then []
  else pyStripIf isQuoteChar (stripFirstPrefixOf resolverPrefixes (pyStripL l))

/-- Embedding of `normalize_doi` at the `String` level. -/
def normalize_doi (s : String) : String :=
  ⟨normalizeDoiL s.toList⟩

/-! ### Identifier validator (`validate_doi` with `AppConfig.doi_regex`) -/

/-- Characters allowed by the suffix class of the configured pattern
`10\.\d\x7b4,9\x7d/[-._;()/:A-Z0-9]+$`, compiled with `re.IGNORECASE`. -/
def isDoiSuffixChar (c : Char) : Bool :=
  c.isDigit || c.isAlpha ||
    (c = '-' || c = '.' || c = '_' || c = ';' || c = '(' || c = ')' || c = '/' || c = ':')

/-- Anchored match of the configured DOI pattern: `10.`, then 4 to 9 digits,
then `/`, then a nonempty run of suffix-class characters to the end.  The
quantifier `\d\x7b4,9\x7d` must stop exactly at the `/`, so the digit block
is the maximal digit run and its length must lie in `[4, 9]`. -/
def doiPatternMatch (l : List Char) : Bool :=
  match l with
  | '1' :: '0' :: '.' :: rest =>
    let digits := rest.takeWhile Char.isDigit
    let afterDigits := rest.drop digits.length
    decide (4 ≤ digits.length) && decide (digits.length ≤ 9) &&
      (match afterDigits with
       | '/' :: suffixPart => !suffixPart.isEmpty && suffixPart.all isDoiSuffixChar
       | _ => false)
  | _ => false

/-- Embedding of `validate_doi`: reject the empty string, then match the pattern against
the stripped input (`doi_pattern.match(doi.strip())`). -/
def validate_doi (s : String) : Bool :=
  if s = "" then false else doiPatternMatch (pyStripL s.toList)

/-! ### Content validator (`openaccess.py`, `_is_valid_pdf`) -/

/-- ASCII byte string of a literal (all indicator literals are ASCII). -/
def bytesOf (s : String) : List Nat :=
  s.toList.map Char.toNat

/-- Effect of `bytes.lower()` on one byte: fold ASCII uppercase to lowercase. -/
def byteLower (b : Nat) : Nat :=
  if 65 ≤ b ∧ b ≤ 90 then b + 32 else b

/-- The PDF magic signature `%PDF-`. -/
def pdfMagic : List Nat :=
  bytesOf "%PDF-"

/-- The HTML-structural markers rejected by `_is_valid_pdf`. -/
def htmlIndicators : List (List Nat) :=
  (["<!doctype html", "<html", "<head>", "<title>", "<body>", "<h1>", "<div>", "<p>",
    "text/html"]).map bytesOf

/-- The access-denied / error-page markers rejected by `_is_valid_pdf`. -/
def errorIndicators : List (List Nat) :=
  (["access denied", "unauthorized", "login required", "subscription required",
    "paywall", "not available", "error 403", "error 404"]).map bytesOf

/-- Embedding of `_is_valid_pdf`: reject empty or shorter-than-4 buffers, accept anything
starting with the magic, otherwise reject buffers containing any indicator
(case-insensitively) and accept the rest. -/
def is_valid_pdf (content : List Nat) : Bool :=
  if content.isEmpty || content.length < 4 then false
  else if listStartsWith pdfMagic content then true
  else
    let contentLower := content.map byteLower
    if htmlIndicators.any (fun ind => listContains ind contentLower) then false
    else if errorIndicators.any (fun ind => listContains ind contentLower) then false
    else true

/-! ### Outcome records

The source passes around `dict` results; every consumer reads `success`,
`error` (read through get with a provider-specific default) and `doi`, the fields
modelled here. -/

/-- Result record of one download attempt (`success` / `error` / `doi` keys
of the result dictionaries in the source). -/
structure DownloadResult where
  success : Bool
  error : Option String := none
  doi : Option String := none
deriving DecidableEq, Repr

/-! ### Fallback orchestrator (`openaccess.py`, `_download_single_paper`)

The four provider adapters are network-facing, so they enter the embedding
as oracle functions from the identifier to the outcome the adapter would
produce.  The second component of the result is the list of adapters that
were actually invoked, in invocation order. -/

/-- Provider names in the priority order of the source. -/
def providerOrder : List String :=
  ["CORE", "arXiv", "NCBI", "Europe PMC"]

/-- Embedding of `_download_single_paper`: try CORE, then arXiv, then NCBI, then Europe
PMC, returning at the first success; if all fail, build the composite
error message from the four failure reasons.  Also returns the invocation
trace. -/
def download_single_paper (core arxiv ncbi europepmc : String → DownloadResult)
    (doi : String) : DownloadResult × List String :=
  let coreResult := core doi
  if coreResult.success then (coreResult, ["CORE"])
  else
    let arxivResult := arxiv doi
    if arxivResult.success then (arxivResult, ["CORE", "arXiv"])
    else
      let ncbiResult := ncbi doi
      if ncbiResult.success then (ncbiResult, ["CORE", "arXiv", "NCBI"])
      else
        let europepmcResult := europepmc doi
        if europepmcResult.success then (europepmcResult, ["CORE", "arXiv", "NCBI", "Europe PMC"])
        else
          let coreError := coreResult.error.getD "CORE API failed"
          let arxivError := arxivResult.error.getD "arXiv API failed"
          let ncbiError := ncbiResult.error.getD "NCBI API failed"
          let europepmcError := europepmcResult.error.getD "Europe PMC API failed"
          ({ success := false
             error := some ("All sources failed - CORE: " ++ coreError ++ "; arXiv: " ++ arxivError
               ++ "; NCBI: " ++ ncbiError ++ "; Europe PMC: " ++ europepmcError)
             doi := some doi },
           ["CORE", "arXiv", "NCBI", "Europe PMC"])

/-! ### CORE adapter retry loop (`openaccess.py`, `_try_core_api`)

One iteration of the source loop `for attempt in range(max_retries + 1)`
either produces a parsed search response or raises.  The oracle `env`
gives, per attempt index, what the HTTP exchange of that attempt did; the
oracle `tryDl` gives the outcome `_try_download_paper` would produce for a
paper of the search result list.  The second component collects the
`time.sleep` durations performed between retries, in seconds. -/

/-- What the HTTP exchange of one attempt produced, as seen by the `try` body
of `_try_core_api`. -/
inductive CoreAttempt (α : Type) where
  | search (totalHits : Nat) (results : List α)
  | httpError (status : Nat) (detail : String)
  | requestError (detail : String)
  | otherError (detail : String)

/-- Constant `max_retries` of `_try_core_api`. -/
def coreMaxRetries : Nat := 3

/-- Constant `base_delay` of `_try_core_api` (seconds). -/
def coreBaseDelay : Nat := 10

/-- First successful `_try_download_paper` outcome over the search results,
scanning in order. -/
def firstPaperSuccess {α : Type} (tryDl : α → DownloadResult) : List α → Option DownloadResult
  | [] => none
  | p :: ps =>
    let r := tryDl p
    if r.success then some r else firstPaperSuccess tryDl ps

/-- The terminal result of one attempt whose search call returned normally
(`totalHits` and the result list): try each paper in order, else report the
appropriate not-found / no-PDF failure. -/
def coreSearchOutcome {α : Type} (tryDl : α → DownloadResult) (doi : String)
    (totalHits : Nat) (results : List α) : DownloadResult :=
  if 0 < totalHits then
    match firstPaperSuccess tryDl results with
    | some r => r
    | none => { success := false, error := some "Paper found but no downloadable PDF available", doi := some doi }
  else { success := false, error := some "Paper not found in CORE database", doi := some doi }

/-- The retry loop of `_try_core_api`, iterating over the remaining
attempt indices of `range(max_retries + 1)`.  A `continue` proceeds to the
next index; exhausting the range without a `return` would produce the
implicit `None` of the source, modelled by `none` (unreachable, since the last
attempt never continues). -/
def coreRetryLoop {α : Type} (env : Nat → CoreAttempt α) (tryDl : α → DownloadResult)
    (doi : String) : List Nat → Option DownloadResult × List Nat
  | [] => (none, [])
  | attempt :: laterAttempts =>
    match env attempt with
    | .search totalHits results => (some (coreSearchOutcome tryDl doi totalHits results), [])
    | .httpError status detail =>
      if status = 429 then
        if attempt < coreMaxRetries then
          let rest := coreRetryLoop env tryDl doi laterAttempts
          (rest.1, coreBaseDelay * 2 ^ attempt :: rest.2)
        else
          (some { success := false, error := some "Rate limit exceeded after 3 retries", doi := some doi }, [])
      else if status = 500 then
        if attempt < coreMaxRetries then
          let rest := coreRetryLoop env tryDl doi laterAttempts
          (rest.1, 5 :: rest.2)
        else
          (some { success := false, error := some "Server error after 3 retries", doi := some doi }, [])
      else
        (some { success := false, error := some ("CORE API HTTP error: " ++ detail), doi := some doi }, [])
    | .requestError detail =>
      (some { success := false, error := some ("CORE API request failed: " ++ detail), doi := some doi }, [])
    | .otherError detail =>
      (some { success := false, error := some ("CORE download error: " ++ detail), doi := some doi }, [])

/-- Embedding of `_try_core_api`: run the retry loop over `range(max_retries + 1)`. -/
def try_core_api {α : Type} (env : Nat → CoreAttempt α) (tryDl : α → DownloadResult)
    (doi : String) : Option DownloadResult × List Nat :=
  coreRetryLoop env tryDl doi (List.range (coreMaxRetries + 1))

/-! ### Fetch + validate (`openaccess.py`, `_try_download_paper` and
`_try_ncbi_download`)

The HTTP fetch is the oracle: it either raises before anything is written,
streams the response completely, or raises mid-stream after part of the
body has already been written to the target file.  Each function returns
its result dictionary together with the file present at the target path
afterwards (`none` = no file). -/

/-- What the fetch of the download URL did. -/
inductive FetchResult where
  | raises (detail : String)
  | full (contentType : String) (body : List Nat)
  | partialStream (contentType : String) (written : List Nat) (detail : String)

/-- Paper record as used by `_try_download_paper` for URL resolution
(`downloadUrl`, falling back to `repositoryDocument.pdfOrigin`). -/
structure PaperRecord where
  downloadUrl : Option String := none
  pdfOrigin : Option String := none
deriving DecidableEq

/-- ASCII `str.lower()`. -/
def strLower (s : String) : String :=
  ⟨s.toList.map Char.toLower⟩

/-- Python `needle in hay` on strings. -/
def strContains (needle hay : String) : Bool :=
  listContains needle.toList hay.toList

/-- Embedding of `_try_download_paper`: resolve the URL, fetch, reject HTML/text content
types before writing, write the body, validate the first kilobyte, unlink
on validation failure or mid-fetch exception, and demand more than 1000
stored bytes for success.  Returns the result and the file left at the
target path. -/
def try_download_paper (fetch : FetchResult) (paper : PaperRecord) (doi : String) :
    DownloadResult × Option (List Nat) :=
  match paper.downloadUrl.orElse (fun _ => paper.pdfOrigin) with
  | none => ({ success := false, error := some "No download URL available", doi := some doi }, none)
  | some _ =>
    match fetch with
    | .raises detail =>
      ({ success := false, error := some ("PDF download failed: " ++ detail), doi := some doi }, none)
    | .partialStream contentType _written detail =>
      let ctLower := strLower contentType
      if strContains "text/html" ctLower || strContains "text/plain" ctLower then
        ({ success := false
           error := some ("Download URL returned HTML/text instead of PDF (Content-Type: " ++ ctLower ++ ")")
           doi := some doi }, none)
      else
        ({ success := false, error := some ("PDF download failed: " ++ detail), doi := some doi }, none)
    | .full contentType body =>
      let ctLower := strLower contentType
      if strContains "text/html" ctLower || strContains "text/plain" ctLower then
        ({ success := false
           error := some ("Download URL returned HTML/text instead of PDF (Content-Type: " ++ ctLower ++ ")")
           doi := some doi }, none)
      else if !is_valid_pdf (body.take 1024) then
        ({ success := false
           error := some "Downloaded content is not a valid PDF (likely HTML/text from publisher paywall)"
           doi := some doi }, none)
      else if 1000 < body.length then
        ({ success := true, error := none, doi := some doi }, some body)
      else
        ({ success := false
           error := some "Downloaded file is empty or too small to be a valid PDF"
           doi := some doi }, some body)

/-- Embedding of `_try_ncbi_download`: same fetch/validate/cleanup shape for an NCBI
link (the link URL is always present in `link_info`), with NCBI-specific
messages and a content-type rejection of `text/html` only. -/
def try_ncbi_download (fetch : FetchResult) (doi : String) :
    DownloadResult × Option (List Nat) :=
  match fetch with
  | .raises detail =>
    ({ success := false, error := some ("NCBI download failed: " ++ detail), doi := some doi }, none)
  | .partialStream contentType _written detail =>
    let ctLower := strLower contentType
    if strContains "text/html" ctLower then
      ({ success := false
         error := some ("NCBI link returned HTML instead of PDF (Content-Type: " ++ ctLower ++ ")")
         doi := some doi }, none)
    else
      ({ success := false, error := some ("NCBI download failed: " ++ detail), doi := some doi }, none)
  | .full contentType body =>
    let ctLower := strLower contentType
    if strContains "text/html" ctLower then
      ({ success := false
         error := some ("NCBI link returned HTML instead of PDF (Content-Type: " ++ ctLower ++ ")")
         doi := some doi }, none)
    else if !is_valid_pdf (body.take 1024) then
      ({ success := false
         error := some "Downloaded content from NCBI is not a valid PDF"
         doi := some doi }, none)
    else if 1000 < body.length then
      ({ success := true, error := none, doi := some doi }, some body)
    else
      ({ success := false
         error := some "Downloaded NCBI file is empty or too small"
         doi := some doi }, some body)

/-! ### Progress record (`openaccess.py`, `DownloadProgress`) -/

/-- Record `DownloadProgress` (the `start_time` timestamp carries no claim-relevant
information and is omitted). -/
structure DownloadProgress where
  current : Nat := 0
  total : Nat := 0
  downloaded : Nat := 0
  failed : Nat := 0
  skipped : Nat := 0
  current_doi : String := ""
  status : String := "idle"
  output_folder : String := ""
deriving DecidableEq

/-- Embedding of `DownloadProgress.progress_percent`: 0.0 when `total` is 0, else
`(current / total) * 100` (real division, modelled over `ℚ`). -/
def progress_percent (p : DownloadProgress) : ℚ :=
  if p.total = 0 then 0 else ((p.current : ℚ) / (p.total : ℚ)) * 100

/-! ### Batch driver and tracking ledger (`openaccess.py`,
`OpenAccessDownloader`)

The downloader state carries the two ledger sets and the live progress
record.  The per-identifier resolution is the oracle `outcome` (indexed by
loop iteration): success, failure result, or exception — the three ways
the `try` block of `_process_dois` can end.  The cooperative stop flag is
the oracle `stop`: `stop j` is the value observed at the j-th read of the
flag (the loop reads it once before each identifier and `download_papers`
reads it once more for the final status). -/

/-- In-memory downloader state: the "resolved" set, the "exhausted" set and
the progress record. -/
structure DownloaderState where
  downloaded_dois : Finset String
  failed_dois : Finset String
  progress : DownloadProgress
deriving DecidableEq

/-- How the resolution of one identifier ended inside the `try` of
`_process_dois`. -/
inductive AttemptOutcome where
  | ok
  | failed
  | raised
deriving DecidableEq

/-- Batch summary dictionary returned by `_process_dois` /
`download_papers`. -/
structure BatchSummary where
  success : Bool
  error : Option String := none
  total_requested : Nat := 0
  downloaded : Nat := 0
  failed : Nat := 0
  skipped : Nat := 0
deriving DecidableEq

/-- Per-identifier side effects: a success increments `downloaded` and adds
to the resolved set; a failure result or an exception increments `failed`
and adds to the exhausted set.  Nothing is ever removed. -/
def applyOutcome (doi : String) (o : AttemptOutcome) (st : DownloaderState) : DownloaderState :=
  match o with
  | .ok =>
    { st with
      progress := { st.progress with downloaded := st.progress.downloaded + 1 }
      downloaded_dois := insert doi st.downloaded_dois }
  | .failed =>
    { st with
      progress := { st.progress with failed := st.progress.failed + 1 }
      failed_dois := insert doi st.failed_dois }
  | .raised =>
    { st with
      progress := { st.progress with failed := st.progress.failed + 1 }
      failed_dois := insert doi st.failed_dois }

/-- The loop body of `_process_dois` for identifier `doi` at index `i`:
update the progress header, then apply the outcome. -/
def processOne (outcome : Nat → AttemptOutcome) (doi : String) (i : Nat)
    (st : DownloaderState) : DownloaderState :=
  applyOutcome doi (outcome i)
    { st with
      progress := { st.progress with current := i + 1, current_doi := doi, status := "downloading" } }

/-- The `for i, doi in enumerate(dois)` loop of `_process_dois`: read the
stop flag before each identifier, break when it is set.  Returns the final
state and the list of identifiers actually attempted. -/
def processLoop (stop : Nat → Bool) (outcome : Nat → AttemptOutcome) :
    List String → Nat → DownloaderState → DownloaderState × List String
  | [], _, st => (st, [])
  | doi :: rest, i, st =>
    if stop i then (st, [])
    else
      let st2 := processOne outcome doi i st
      let r := processLoop stop outcome rest (i + 1) st2
      (r.1, doi :: r.2)

/-- Embedding of `_process_dois`: set the phase to `processing`, run the loop, and build
the summary dictionary from the progress counters. -/
def process_dois (stop : Nat → Bool) (outcome : Nat → AttemptOutcome)
    (dois : List String) (st : DownloaderState) :
    DownloaderState × List String × BatchSummary :=
  let stStart := { st with progress := { st.progress with status := "processing" } }
  let r := processLoop stop outcome dois 0 stStart
  (r.1, r.2,
    { success := true
      total_requested := dois.length
      downloaded := r.1.progress.downloaded
      failed := r.1.progress.failed
      skipped := r.1.progress.skipped })

/-- Embedding of `_load_dois`: per line, strip, skip blanks and `#` comments, normalize,
validate, and keep the identifier unless it is already in the resolved set
— in which case the skipped counter is incremented instead.  Returns the
kept identifiers in order and the number of skips counted. -/
def load_dois (resolved : Finset String) (lines : List String) : List String × Nat :=
  lines.foldl
    (fun acc line =>
      let stripped := pyStrip line
      if stripped ≠ "" ∧ ¬ listStartsWith "#".toList stripped.toList then
        let doi := normalize_doi stripped
        if validate_doi doi then
          if doi ∉ resolved then (acc.1 ++ [doi], acc.2)
          else (acc.1, acc.2 + 1)
        else acc
      else acc)
    ([], 0)

/-- Embedding of `download_papers`: load the identifier list (incrementing `skipped` on
the progress record that is live at that moment), bail out if nothing is
left, then REPLACE the progress record with a fresh one — discarding the
skip count — process the list, and set the final status from one more read
of the stop flag (read index = number of identifiers attempted). -/
def download_papers (stop : Nat → Bool) (outcome : Nat → AttemptOutcome)
    (st : DownloaderState) (lines : List String) (outputFolder : String) :
    DownloaderState × List String × BatchSummary :=
  let loaded := load_dois st.downloaded_dois lines
  let stLoaded :=
    { st with progress := { st.progress with skipped := st.progress.skipped + loaded.2 } }
  if loaded.1.isEmpty then
    (stLoaded, [], { success := false, error := some "No valid DOIs found in file" })
  else
    let stFresh :=
      { stLoaded with
        progress :=
          { current := 0, total := loaded.1.length, downloaded := 0, failed := 0, skipped := 0
            current_doi := "", status := "starting", output_folder := outputFolder } }
    let r := process_dois stop outcome loaded.1 stFresh
    let finalStatus := if stop r.2.1.length then "stopped" else "completed"
    ({ r.1 with progress := { r.1.progress with status := finalStatus } }, r.2.1, r.2.2)

/-- The effect of the `_process_dois` loop when no stop is observed:
process every identifier in order (used to state what a completed prefix
of the loop did). -/
def runAll (outcome : Nat → AttemptOutcome) : List String → Nat → DownloaderState → DownloaderState
  | [], _, st => st
  | doi :: rest, i, st => runAll outcome rest (i + 1) (processOne outcome doi i st)

/-! ## Supporting lemmas -/

/-- Function `listStartsWith` decides the prefix relation. -/
theorem listStartsWith_iff {α : Type} [DecidableEq α] (p l : List α) :
    listStartsWith p l = true ↔ p <+: l := by
  induction p generalizing l with
  | nil => simp [listStartsWith, List.nil_prefix]
  | cons a p ih =>
    cases l with
    | nil => simp [listStartsWith, List.prefix_nil]
    | cons b l =>
      by_cases hab : a = b
      · simp [listStartsWith, hab, List.cons_prefix_cons, ih]
      · simp [listStartsWith, hab, List.cons_prefix_cons]

/-- Function `listContains` decides the infix relation. -/
theorem listContains_iff {α : Type} [DecidableEq α] (p l : List α) :
    listContains p l = true ↔ p <:+: l := by
  induction l with
  | nil =>
    cases p with
    | nil => simp [listContains, listStartsWith]
    | cons a p => simp [listContains, listStartsWith]
  | cons b l ih =>
    simp [listContains, List.infix_cons_iff, listStartsWith_iff, ih]

/-! ## Claims -/

/-- C9: `normalize_doi` maps the resolver-URL form of `10.1000/xyz123` to
the bare identifier, `validate_doi` accepts `10.1000/xyz123`, and
`validate_doi` rejects `not-a-doi`. -/
theorem normalization_round_trip :
    normalize_doi "https://doi.org/10.1000/xyz123" = "10.1000/xyz123" ∧
    validate_doi "10.1000/xyz123" = true ∧
    validate_doi "not-a-doi" = false := by
  refine ⟨?_, ?_, ?_⟩ <;> decide

/-- C10: `progress_percent` is 0 when `total` is 0 and otherwise the exact
ratio `current / total` scaled to a percentage, so polling a fresh
progress snapshot never divides by zero. -/
theorem progress_percent_spec (p : DownloadProgress) :
    (p.total = 0 → progress_percent p = 0) ∧
    (p.total ≠ 0 → progress_percent p * (p.total : ℚ) = (p.current : ℚ) * 100) := by
  constructor
  · intro h
    simp [progress_percent, h]
  · intro h
    have hq : ((p.total : ℚ)) ≠ 0 := by exact_mod_cast h
    field_simp [progress_percent, h]

/-- Witness for C10 at a concrete snapshot (`current = 1`, `total = 4`). -/
theorem progress_percent_spec_witness :
    progress_percent { current := 1, total := 4 } * ((4 : Nat) : ℚ) = ((1 : Nat) : ℚ) * 100 :=
  (progress_percent_spec { current := 1, total := 4 }).2 (by decide)

/-- C2 counterexample: the buffer `ABCD` is at least 4 bytes long, does not
begin with the magic signature and contains no marker, and `_is_valid_pdf`
ACCEPTS it — so the validator result is not equivalent to "begins with the
magic signature". -/
theorem is_valid_pdf_not_iff_magic :
    is_valid_pdf (bytesOf "ABCD") = true ∧ ¬ pdfMagic <+: bytesOf "ABCD" := by
  constructor
  · decide
  · decide

/-- C2 as amended: `_is_valid_pdf` accepts a buffer iff it has at least 4
bytes and either begins with the magic signature (in which case markers in
the rest of the buffer are NOT checked) or contains none of the
case-insensitive HTML-structural and access-denied markers; the four spec
examples behave as stated. -/
theorem is_valid_pdf_characterization :
    (∀ content : List Nat,
      is_valid_pdf content = true ↔
        4 ≤ content.length ∧
          (pdfMagic <+: content ∨
            ∀ ind ∈ htmlIndicators ++ errorIndicators, ¬ ind <:+: content.map byteLower)) ∧
    is_valid_pdf (bytesOf "%PDF-1.4 ...") = true ∧
    is_valid_pdf (bytesOf "<!DOCTYPE html><body>x</body>") = false ∧
    is_valid_pdf (bytesOf "ab") = false ∧
    is_valid_pdf (bytesOf "  <html>Access Denied</html>") = false := by
  refine ⟨?_, by decide, by decide, by decide, by decide⟩
  intro content
  by_cases h4 : 4 ≤ content.length
  · have hlt : ¬ content.length < 4 := not_lt.mpr h4
    have hne : content.isEmpty = false := by
      cases content with
      | nil => simp at h4
      | cons a l => rfl
    by_cases hm : listStartsWith pdfMagic content = true
    · have hpre : pdfMagic <+: content := (listStartsWith_iff _ _).mp hm
      simp [is_valid_pdf, hne, hlt, hm, h4, hpre]
    · have hnpre : ¬ pdfMagic <+: content := fun hc => hm ((listStartsWith_iff _ _).mpr hc)
      have hval : is_valid_pdf content =
          (if htmlIndicators.any (fun ind => listContains ind (content.map byteLower)) then false
           else if errorIndicators.any (fun ind => listContains ind (content.map byteLower)) then false
           else true) := by
        simp [is_valid_pdf, hne, hlt, hm]
      rw [hval]
      by_cases hh : htmlIndicators.any (fun ind => listContains ind (content.map byteLower)) = true
      · rcases List.any_eq_true.mp hh with ⟨ind, hmem, hcon⟩
        simp only [hh, if_true]
        constructor
        · intro hfalse
          exact absurd hfalse (by simp)
        · rintro ⟨-, hor⟩
          rcases hor with hor | hall
          · exact absurd hor hnpre
          · exact absurd ((listContains_iff _ _).mp hcon)
              (hall ind (List.mem_append.mpr (Or.inl hmem)))
      · by_cases he : errorIndicators.any (fun ind => listContains ind (content.map byteLower)) = true
        · rcases List.any_eq_true.mp he with ⟨ind, hmem, hcon⟩
          simp only [hh, he, if_true, Bool.false_eq_true, if_false]
          constructor
          · intro hfalse
            exact absurd hfalse (by simp)
          · rintro ⟨-, hor⟩
            rcases hor with hor | hall
            · exact absurd hor hnpre
            · exact absurd ((listContains_iff _ _).mp hcon)
                (hall ind (List.mem_append.mpr (Or.inr hmem)))
        · simp only [hh, he, Bool.false_eq_true, if_false]
          constructor
          · intro _
            refine ⟨h4, Or.inr ?_⟩
            intro ind hmem hinf
            rcases List.mem_append.mp hmem with hmem | hmem
            · exact hh (List.any_eq_true.mpr ⟨ind, hmem, (listContains_iff _ _).mpr hinf⟩)
            · exact he (List.any_eq_true.mpr ⟨ind, hmem, (listContains_iff _ _).mpr hinf⟩)
          · intro _
            trivial
  · have hlt : content.length < 4 := not_le.mp h4
    simp [is_valid_pdf, hlt, h4]

/-- Witness for the C2 characterization at the concrete buffer `%PDF-x`. -/
theorem is_valid_pdf_characterization_witness :
    is_valid_pdf (bytesOf "%PDF-x") = true ↔
      4 ≤ (bytesOf "%PDF-x").length ∧
        (pdfMagic <+: bytesOf "%PDF-x" ∨
          ∀ ind ∈ htmlIndicators ++ errorIndicators, ¬ ind <:+: (bytesOf "%PDF-x").map byteLower) :=
  is_valid_pdf_characterization.1 (bytesOf "%PDF-x")

/-- Stripping is insensitive to one added space on each side. -/
theorem pyStripL_pad (l : List Char) : pyStripL (' ' :: (l ++ [' '])) = pyStripL l := by
  have hfront : List.dropWhile isPySpace (' ' :: (l ++ [' '])) =
      List.dropWhile isPySpace (l ++ [' ']) := by
    simp [List.dropWhile_cons, isPySpace]
  unfold pyStripL pyStripIf
  rw [hfront, List.dropWhile_append]
  by_cases hemp : (List.dropWhile isPySpace l).isEmpty = true
  · rw [List.isEmpty_iff] at hemp
    simp [hemp, List.dropWhile_cons, isPySpace, stripTrail]
  · simp only [hemp, Bool.false_eq_true, if_false]
    unfold stripTrail
    rw [List.reverse_append]
    simp [List.dropWhile_cons, isPySpace]

/-- C8 counterexample: the mixed-case resolver prefix `Doi:` is NOT
stripped by `normalize_doi`, so prefix stripping is not case-insensitive. -/
theorem normalize_doi_not_case_insensitive :
    normalize_doi "Doi:10.1000/xyz123" = "Doi:10.1000/xyz123" ∧
    normalize_doi "Doi:10.1000/xyz123" ≠ "10.1000/xyz123" := by
  constructor
  · decide
  · decide

/-- C8 as amended: `normalize_doi` strips surrounding whitespace, then the
first matching prefix among exactly the four literal spellings `doi:`,
`DOI:`, `https://doi.org/`, `http://dx.doi.org/` (no case folding: other
casings are left in place, see the counterexample), then surrounding
quotes; it is total by construction. -/
theorem normalize_doi_spec :
    (∀ p t, p ∈ resolverPrefixes → pyStripL (p ++ t) = p ++ t →
      normalizeDoiL (p ++ t) = pyStripIf isQuoteChar t) ∧
    (∀ l, normalizeDoiL (' ' :: (l ++ [' '])) = normalizeDoiL l) := by
  constructor
  · intro p t hp hs
    have hp' : p = "doi:".toList ∨ p = "DOI:".toList ∨
        p = "https://doi.org/".toList ∨ p = "http://dx.doi.org/".toList := by
      simpa [resolverPrefixes] using hp
    rcases hp' with rfl | rfl | rfl | rfl
    · rw [show normalizeDoiL ("doi:".toList ++ t) =
          pyStripIf isQuoteChar
            (stripFirstPrefixOf resolverPrefixes (pyStripL ("doi:".toList ++ t))) from rfl, hs]
      rfl
    · rw [show normalizeDoiL ("DOI:".toList ++ t) =
          pyStripIf isQuoteChar
            (stripFirstPrefixOf resolverPrefixes (pyStripL ("DOI:".toList ++ t))) from rfl, hs]
      rfl
    · rw [show normalizeDoiL ("https://doi.org/".toList ++ t) =
          pyStripIf isQuoteChar
            (stripFirstPrefixOf resolverPrefixes (pyStripL ("https://doi.org/".toList ++ t))) from rfl, hs]
      rfl
    · rw [show normalizeDoiL ("http://dx.doi.org/".toList ++ t) =
          pyStripIf isQuoteChar
            (stripFirstPrefixOf resolverPrefixes (pyStripL ("http://dx.doi.org/".toList ++ t))) from rfl, hs]
      rfl
  · intro l
    by_cases hl : l = []
    · subst hl
      decide
    · rw [show normalizeDoiL (' ' :: (l ++ [' '])) =
          pyStripIf isQuoteChar
            (stripFirstPrefixOf resolverPrefixes (pyStripL (' ' :: (l ++ [' '])))) from rfl]
      rw [pyStripL_pad]
      simp [normalizeDoiL, hl]

/-- Witness for the amended C8 statement: stripping `doi:` from a concrete
identifier. -/
theorem normalize_doi_spec_witness :
    normalizeDoiL ("doi:".toList ++ "10.1000/xyz123".toList) =
      pyStripIf isQuoteChar "10.1000/xyz123".toList :=
  normalize_doi_spec.1 "doi:".toList "10.1000/xyz123".toList (by decide) (by decide)

/-- C1: `_download_single_paper` invokes the adapters strictly in the
priority order CORE, arXiv, NCBI, Europe PMC (the invocation trace is
always a prefix of that order), short-circuits at the first success, and
on exhaustion returns a failure whose message concatenates the four
failure reasons of the four adapters, labelled by provider. -/
theorem download_single_paper_priority_chain
    (core arxiv ncbi europepmc : String → DownloadResult) (doi : String) :
    (∃ k, k ≤ 4 ∧ (download_single_paper core arxiv ncbi europepmc doi).2 = providerOrder.take k) ∧
    ((core doi).success = true →
      download_single_paper core arxiv ncbi europepmc doi = (core doi, ["CORE"])) ∧
    ((core doi).success = false → (arxiv doi).success = true →
      download_single_paper core arxiv ncbi europepmc doi = (arxiv doi, ["CORE", "arXiv"])) ∧
    ((core doi).success = false → (arxiv doi).success = false → (ncbi doi).success = true →
      download_single_paper core arxiv ncbi europepmc doi = (ncbi doi, ["CORE", "arXiv", "NCBI"])) ∧
    ((core doi).success = false → (arxiv doi).success = false → (ncbi doi).success = false →
      (europepmc doi).success = true →
      download_single_paper core arxiv ncbi europepmc doi =
        (europepmc doi, ["CORE", "arXiv", "NCBI", "Europe PMC"])) ∧
    ((core doi).success = false → (arxiv doi).success = false → (ncbi doi).success = false →
      (europepmc doi).success = false →
      download_single_paper core arxiv ncbi europepmc doi =
        ({ success := false
           error := some ("All sources failed - CORE: " ++ (core doi).error.getD "CORE API failed"
             ++ "; arXiv: " ++ (arxiv doi).error.getD "arXiv API failed"
             ++ "; NCBI: " ++ (ncbi doi).error.getD "NCBI API failed"
             ++ "; Europe PMC: " ++ (europepmc doi).error.getD "Europe PMC API failed")
           doi := some doi },
         ["CORE", "arXiv", "NCBI", "Europe PMC"])) := by
  cases hc : (core doi).success
  · cases ha : (arxiv doi).success
    · cases hn : (ncbi doi).success
      · cases he : (europepmc doi).success
        · exact ⟨⟨4, by norm_num, by simp [download_single_paper, hc, ha, hn, he, providerOrder]⟩,
            by simp [hc], by simp [ha], by simp [hn], by simp [he],
            fun _ _ _ _ => by simp [download_single_paper, hc, ha, hn, he]⟩
        · exact ⟨⟨4, by norm_num, by simp [download_single_paper, hc, ha, hn, he, providerOrder]⟩,
            by simp [hc], by simp [ha], by simp [hn],
            fun _ _ _ _ => by simp [download_single_paper, hc, ha, hn, he],
            fun _ _ _ hcontra => by simp [he] at hcontra⟩
      · exact ⟨⟨3, by norm_num, by simp [download_single_paper, hc, ha, hn, providerOrder]⟩,
          by simp [hc], by simp [ha],
          fun _ _ _ => by simp [download_single_paper, hc, ha, hn],
          fun _ _ hcontra _ => by simp [hn] at hcontra,
          fun _ _ hcontra _ => by simp [hn] at hcontra⟩
    · exact ⟨⟨2, by norm_num, by simp [download_single_paper, hc, ha, providerOrder]⟩,
        by simp [hc],
        fun _ _ => by simp [download_single_paper, hc, ha],
        fun _ hcontra _ => by simp [ha] at hcontra,
        fun _ hcontra _ _ => by simp [ha] at hcontra,
        fun _ hcontra _ _ => by simp [ha] at hcontra⟩
  · exact ⟨⟨1, by norm_num, by simp [download_single_paper, hc, providerOrder]⟩,
      fun _ => by simp [download_single_paper, hc],
      fun hcontra _ => by simp [hc] at hcontra,
      fun hcontra _ _ => by simp [hc] at hcontra,
      fun hcontra _ _ _ => by simp [hc] at hcontra,
      fun hcontra _ _ _ => by simp [hc] at hcontra⟩

/-- Witness for C1: with CORE failing and arXiv succeeding, only CORE and
arXiv are invoked and the arXiv result is returned. -/
theorem download_single_paper_priority_chain_witness :
    download_single_paper (fun _ => { success := false, error := some "no hit" })
        (fun _ => { success := true }) (fun _ => { success := false })
        (fun _ => { success := false }) "10.1000/xyz123" =
      ({ success := true }, ["CORE", "arXiv"]) :=
  (download_single_paper_priority_chain (fun _ => { success := false, error := some "no hit" })
      (fun _ => { success := true }) (fun _ => { success := false })
      (fun _ => { success := false }) "10.1000/xyz123").2.2.1 rfl rfl

/-- C6 counterexample: a 502 response — a server-side 5xx status — is NOT
retried by `_try_core_api`: the adapter fails immediately with the generic
HTTP-error detail and performs no backoff sleep, where the claim requires
5xx responses to be retried with a short fixed delay up to the ceiling. -/
theorem try_core_api_502_not_retried :
    try_core_api (fun _ => (CoreAttempt.httpError 502 "502 Server Error" : CoreAttempt Unit))
        (fun _ => { success := true }) "10.1000/xyz123" =
      (some { success := false, error := some "CORE API HTTP error: 502 Server Error"
              doi := some "10.1000/xyz123" }, []) := by
  decide

/-- C6 as amended: a 429 response is retried with exponential backoff
(base 10 s, doubling per attempt: sleeps 10, 20, 40) up to the 3-retry
ceiling and then fails with the rate-limit message; a response with status
exactly 500 is retried with a fixed 5 s delay up to the same ceiling and
then fails with the server-error message; any other HTTP status — 5xx
statuses other than 500 included — is non-retryable and fails immediately
with the status detail. -/
theorem try_core_api_retry_policy {α : Type} (env : Nat → CoreAttempt α)
    (tryDl : α → DownloadResult) (doi : String) :
    ((∀ n, n ≤ coreMaxRetries → ∃ d, env n = .httpError 429 d) →
      try_core_api env tryDl doi =
        (some { success := false, error := some "Rate limit exceeded after 3 retries"
                doi := some doi }, [10, 20, 40])) ∧
    ((∀ n, n ≤ coreMaxRetries → ∃ d, env n = .httpError 500 d) →
      try_core_api env tryDl doi =
        (some { success := false, error := some "Server error after 3 retries"
                doi := some doi }, [5, 5, 5])) ∧
    (∀ status d, status ≠ 429 → status ≠ 500 → env 0 = .httpError status d →
      try_core_api env tryDl doi =
        (some { success := false, error := some ("CORE API HTTP error: " ++ d)
                doi := some doi }, [])) := by
  refine ⟨?_, ?_, ?_⟩
  · intro h
    obtain ⟨d0, h0⟩ := h 0 (by decide)
    obtain ⟨d1, h1⟩ := h 1 (by decide)
    obtain ⟨d2, h2⟩ := h 2 (by decide)
    obtain ⟨d3, h3⟩ := h 3 (by decide)
    show coreRetryLoop env tryDl doi (List.range (coreMaxRetries + 1)) = _
    rw [show List.range (coreMaxRetries + 1) = [0, 1, 2, 3] from rfl]
    simp only [coreRetryLoop, h0, h1, h2, h3]
    norm_num [coreMaxRetries, coreBaseDelay]
  · intro h
    obtain ⟨d0, h0⟩ := h 0 (by decide)
    obtain ⟨d1, h1⟩ := h 1 (by decide)
    obtain ⟨d2, h2⟩ := h 2 (by decide)
    obtain ⟨d3, h3⟩ := h 3 (by decide)
    show coreRetryLoop env tryDl doi (List.range (coreMaxRetries + 1)) = _
    rw [show List.range (coreMaxRetries + 1) = [0, 1, 2, 3] from rfl]
    simp only [coreRetryLoop, h0, h1, h2, h3]
    norm_num [coreMaxRetries]
  · intro status d hs429 hs500 h0
    show coreRetryLoop env tryDl doi (List.range (coreMaxRetries + 1)) = _
    rw [show List.range (coreMaxRetries + 1) = [0, 1, 2, 3] from rfl]
    simp only [coreRetryLoop, h0]
    simp [hs429, hs500]

/-- Witness for the amended C6 statement on concrete environments: an
all-429 run, an all-500 run, and a single 404 response. -/
theorem try_core_api_retry_policy_witness :
    (try_core_api (fun _ => (CoreAttempt.httpError 429 "too many" : CoreAttempt Unit))
        (fun _ => { success := true }) "10.1000/xyz123" =
      (some { success := false, error := some "Rate limit exceeded after 3 retries"
              doi := some "10.1000/xyz123" }, [10, 20, 40])) ∧
    (try_core_api (fun _ => (CoreAttempt.httpError 500 "boom" : CoreAttempt Unit))
        (fun _ => { success := true }) "10.1000/xyz123" =
      (some { success := false, error := some "Server error after 3 retries"
              doi := some "10.1000/xyz123" }, [5, 5, 5])) ∧
    (try_core_api (fun _ => (CoreAttempt.httpError 404 "404 Not Found" : CoreAttempt Unit))
        (fun _ => { success := true }) "10.1000/xyz123" =
      (some { success := false, error := some "CORE API HTTP error: 404 Not Found"
              doi := some "10.1000/xyz123" }, [])) :=
  ⟨(try_core_api_retry_policy (fun _ => (CoreAttempt.httpError 429 "too many" : CoreAttempt Unit))
      (fun _ => { success := true }) "10.1000/xyz123").1 (fun n _ => ⟨"too many", rfl⟩),
   (try_core_api_retry_policy (fun _ => (CoreAttempt.httpError 500 "boom" : CoreAttempt Unit))
      (fun _ => { success := true }) "10.1000/xyz123").2.1 (fun n _ => ⟨"boom", rfl⟩),
   (try_core_api_retry_policy (fun _ => (CoreAttempt.httpError 404 "404 Not Found" : CoreAttempt Unit))
      (fun _ => { success := true }) "10.1000/xyz123").2.2 404 "404 Not Found"
      (by norm_num) (by norm_num) rfl⟩

/-- C4 counterexample: a fetched body of 6 bytes that starts with the magic
signature passes content validation, is stored, fails the minimum-size
check — and the stored file is LEFT at the target path although the
attempt returns failure. -/
theorem try_download_paper_small_file_remains :
    (try_download_paper (.full "application/pdf" (bytesOf "%PDF-1"))
        { downloadUrl := some "https://repo/paper.pdf" } "10.1000/xyz123").1.success = false ∧
    (try_download_paper (.full "application/pdf" (bytesOf "%PDF-1"))
        { downloadUrl := some "https://repo/paper.pdf" } "10.1000/xyz123").2 =
      some (bytesOf "%PDF-1") := by
  constructor
  · decide
  · decide

/-- C4 as amended: after a failed fetch no file remains at the target path
— EXCEPT on the too-small path: a stored body that passes content
validation but does not exceed the 1000-byte minimum is left on disk while
the failure result is returned.  This holds for both `_try_download_paper`
and `_try_ncbi_download`. -/
theorem fetch_failure_cleanup (fetch : FetchResult) (paper : PaperRecord) (doi : String) :
    ((try_download_paper fetch paper doi).1.success = false →
      (try_download_paper fetch paper doi).2 = none ∨
        ∃ body, (try_download_paper fetch paper doi).2 = some body ∧
          is_valid_pdf (body.take 1024) = true ∧ body.length ≤ 1000 ∧
          (try_download_paper fetch paper doi).1.error =
            some "Downloaded file is empty or too small to be a valid PDF") ∧
    ((try_ncbi_download fetch doi).1.success = false →
      (try_ncbi_download fetch doi).2 = none ∨
        ∃ body, (try_ncbi_download fetch doi).2 = some body ∧
          is_valid_pdf (body.take 1024) = true ∧ body.length ≤ 1000 ∧
          (try_ncbi_download fetch doi).1.error =
            some "Downloaded NCBI file is empty or too small") := by
  constructor
  · intro hfail
    cases hu : paper.downloadUrl.orElse (fun _ => paper.pdfOrigin) with
    | none =>
      left
      simp [try_download_paper, hu]
    | some u =>
      cases fetch with
      | raises detail =>
        left
        simp [try_download_paper, hu]
      | partialStream ct w detail =>
        left
        simp only [try_download_paper, hu]
        split <;> rfl
      | full ct body =>
        by_cases hct : (strContains "text/html" (strLower ct)
            || strContains "text/plain" (strLower ct)) = true
        · left
          simp [try_download_paper, hu, hct]
        · cases hv : is_valid_pdf (body.take 1024) with
          | false =>
            left
            simp [try_download_paper, hu, hct, hv]
          | true =>
            by_cases hlen : 1000 < body.length
            · exfalso
              simp [try_download_paper, hu, hct, hv, hlen] at hfail
            · right
              exact ⟨body, by simp [try_download_paper, hu, hct, hv, hlen], hv,
                not_lt.mp hlen, by simp [try_download_paper, hu, hct, hv, hlen]⟩
  · intro hfail
    cases fetch with
    | raises detail =>
      left
      simp [try_ncbi_download]
    | partialStream ct w detail =>
      left
      simp only [try_ncbi_download]
      split <;> rfl
    | full ct body =>
      by_cases hct : strContains "text/html" (strLower ct) = true
      · left
        simp [try_ncbi_download, hct]
      · cases hv : is_valid_pdf (body.take 1024) with
        | false =>
          left
          simp [try_ncbi_download, hct, hv]
        | true =>
          by_cases hlen : 1000 < body.length
          · exfalso
            simp [try_ncbi_download, hct, hv, hlen] at hfail
          · right
            exact ⟨body, by simp [try_ncbi_download, hct, hv, hlen], hv,
              not_lt.mp hlen, by simp [try_ncbi_download, hct, hv, hlen]⟩

/-- Witness for the amended C4 statement: a validation-rejected HTML body
leaves no file behind. -/
theorem fetch_failure_cleanup_witness :
    (try_download_paper (.full "application/octet-stream" (bytesOf "<html>Access Denied</html>"))
        { downloadUrl := some "https://repo/paper.pdf" } "10.1000/xyz123").2 = none ∨
      ∃ body,
        (try_download_paper (.full "application/octet-stream" (bytesOf "<html>Access Denied</html>"))
            { downloadUrl := some "https://repo/paper.pdf" } "10.1000/xyz123").2 = some body ∧
          is_valid_pdf (body.take 1024) = true ∧ body.length ≤ 1000 ∧
          (try_download_paper (.full "application/octet-stream" (bytesOf "<html>Access Denied</html>"))
              { downloadUrl := some "https://repo/paper.pdf" } "10.1000/xyz123").1.error =
            some "Downloaded file is empty or too small to be a valid PDF" :=
  (fetch_failure_cleanup (.full "application/octet-stream" (bytesOf "<html>Access Denied</html>"))
      { downloadUrl := some "https://repo/paper.pdf" } "10.1000/xyz123").1 (by decide)

/-- One loop body adds exactly one to `downloaded + failed` and leaves
`skipped` unchanged. -/
theorem processOne_counters (outcome : Nat → AttemptOutcome) (d : String) (i : Nat)
    (st : DownloaderState) :
    (processOne outcome d i st).progress.downloaded + (processOne outcome d i st).progress.failed =
      st.progress.downloaded + st.progress.failed + 1 ∧
    (processOne outcome d i st).progress.skipped = st.progress.skipped := by
  cases h : outcome i <;> simp [processOne, applyOutcome, h] <;> omega

/-- One loop body either inserts the identifier into the resolved set or
into the exhausted set, leaving the other set untouched. -/
theorem processOne_sets (outcome : Nat → AttemptOutcome) (d : String) (i : Nat)
    (st : DownloaderState) :
    ((processOne outcome d i st).downloaded_dois = insert d st.downloaded_dois ∧
      (processOne outcome d i st).failed_dois = st.failed_dois) ∨
    ((processOne outcome d i st).downloaded_dois = st.downloaded_dois ∧
      (processOne outcome d i st).failed_dois = insert d st.failed_dois) := by
  cases h : outcome i
  · exact Or.inl (by simp [processOne, applyOutcome, h])
  · exact Or.inr (by simp [processOne, applyOutcome, h])
  · exact Or.inr (by simp [processOne, applyOutcome, h])

/-- A loop started at a raised stop flag performs no work. -/
theorem processLoop_stop (stop : Nat → Bool) (outcome : Nat → AttemptOutcome)
    (l : List String) (i : Nat) (st : DownloaderState) (h : stop i = true) :
    processLoop stop outcome l i st = (st, []) := by
  cases l with
  | nil => rfl
  | cons d rest => simp [processLoop, h]

/-- Loop characterization: if the flag reads false for exactly the indices
of `a` and true at the next read, the loop processes `a`, ignores `b`, and
its state is the full run over `a`. -/
theorem processLoop_runAll (stop : Nat → Bool) (outcome : Nat → AttemptOutcome)
    (a b : List String) (i : Nat) (st : DownloaderState)
    (hfalse : ∀ j, j < a.length → stop (i + j) = false)
    (hstop : stop (i + a.length) = true) :
    processLoop stop outcome (a ++ b) i st = (runAll outcome a i st, a) := by
  induction a generalizing i st with
  | nil =>
    rw [List.nil_append, runAll]
    exact processLoop_stop stop outcome b i st (by simpa using hstop)
  | cons d a ih =>
    have h0 : stop i = false := by simpa using hfalse 0 (by simp)
    have hfalse' : ∀ j, j < a.length → stop (i + 1 + j) = false := by
      intro j hj
      have h := hfalse (j + 1) (by simpa using Nat.succ_lt_succ hj)
      rwa [show i + (j + 1) = i + 1 + j by omega] at h
    have hstop' : stop (i + 1 + a.length) = true := by
      rwa [show i + (d :: a).length = i + 1 + a.length by simp; omega] at hstop
    simp only [List.cons_append, processLoop, h0, Bool.false_eq_true, if_false]
    rw [show processLoop stop outcome (a.append b) (i + 1) (processOne outcome d i st) =
          (runAll outcome a (i + 1) (processOne outcome d i st), a) from
        ih (i + 1) (processOne outcome d i st) hfalse' hstop']
    simp [runAll]

/-- A full run over `l` adds exactly `l.length` to `downloaded + failed`
and leaves `skipped` unchanged. -/
theorem runAll_counters (outcome : Nat → AttemptOutcome) (l : List String) (i : Nat)
    (st : DownloaderState) :
    (runAll outcome l i st).progress.downloaded + (runAll outcome l i st).progress.failed =
      st.progress.downloaded + st.progress.failed + l.length ∧
    (runAll outcome l i st).progress.skipped = st.progress.skipped := by
  induction l generalizing i st with
  | nil => simp [runAll]
  | cons d l ih =>
    have hone := processOne_counters outcome d i st
    have htail := ih (i + 1) (processOne outcome d i st)
    constructor
    · rw [runAll, htail.1, hone.1]
      simp
      omega
    · rw [runAll, htail.2, hone.2]

/-- Identifiers not in the processed list keep their ledger membership
status across a full run. -/
theorem runAll_sets_outside (outcome : Nat → AttemptOutcome) (l : List String) (i : Nat)
    (st : DownloaderState) (d : String) (hd : d ∉ l) :
    (d ∈ (runAll outcome l i st).downloaded_dois ↔ d ∈ st.downloaded_dois) ∧
    (d ∈ (runAll outcome l i st).failed_dois ↔ d ∈ st.failed_dois) := by
  induction l generalizing i st with
  | nil => simp [runAll]
  | cons e l ih =>
    have hne : d ≠ e := fun h => hd (h ▸ List.mem_cons_self e l)
    have hdl : d ∉ l := fun h => hd (List.mem_cons_of_mem e h)
    have htail := ih (i + 1) (processOne outcome e i st) hdl
    rcases processOne_sets outcome e i st with ⟨hD, hF⟩ | ⟨hD, hF⟩
    · constructor
      · rw [runAll, htail.1, hD, Finset.mem_insert]
        simp [hne]
      · rw [runAll, htail.2, hF]
    · constructor
      · rw [runAll, htail.1, hD]
      · rw [runAll, htail.2, hF, Finset.mem_insert]
        simp [hne]

/-- The per-identifier loop never removes a ledger membership. -/
theorem processLoop_sets_mono (stop : Nat → Bool) (outcome : Nat → AttemptOutcome)
    (l : List String) (i : Nat) (st : DownloaderState) (d : String) :
    (d ∈ st.failed_dois → d ∈ (processLoop stop outcome l i st).1.failed_dois) ∧
    (d ∈ st.downloaded_dois → d ∈ (processLoop stop outcome l i st).1.downloaded_dois) := by
  induction l generalizing i st with
  | nil => simp [processLoop]
  | cons e l ih =>
    by_cases hs : stop i = true
    · simp [processLoop, hs]
    · have hb : stop i = false := by
        cases hval : stop i
        · rfl
        · exact absurd hval hs
      have htail := ih (i + 1) (processOne outcome e i st)
      rcases processOne_sets outcome e i st with ⟨hD, hF⟩ | ⟨hD, hF⟩
      · constructor
        · intro hm
          simp only [processLoop, hb, Bool.false_eq_true, if_false]
          exact htail.1 (hF ▸ hm)
        · intro hm
          simp only [processLoop, hb, Bool.false_eq_true, if_false]
          exact htail.2 (hD ▸ Finset.mem_insert_of_mem hm)
      · constructor
        · intro hm
          simp only [processLoop, hb, Bool.false_eq_true, if_false]
          exact htail.1 (hF ▸ Finset.mem_insert_of_mem hm)
        · intro hm
          simp only [processLoop, hb, Bool.false_eq_true, if_false]
          exact htail.2 (hD ▸ hm)

/-- Unfolding of `download_papers` on a nonempty loaded list: fresh
progress (the load-time skip count is discarded), the loop from read
index 0, and a final status decided by one more read of the stop flag. -/
theorem download_papers_eq (stop : Nat → Bool) (outcome : Nat → AttemptOutcome)
    (st : DownloaderState) (lines : List String) (outputFolder : String)
    (dois : List String) (hload : (load_dois st.downloaded_dois lines).1 = dois)
    (hne : dois ≠ []) :
    download_papers stop outcome st lines outputFolder =
      (let stStart : DownloaderState :=
        { downloaded_dois := st.downloaded_dois
          failed_dois := st.failed_dois
          progress :=
            { current := 0, total := dois.length, downloaded := 0, failed := 0, skipped := 0
              current_doi := "", status := "processing", output_folder := outputFolder } }
       let r := processLoop stop outcome dois 0 stStart
       ({ r.1 with progress := { r.1.progress with
            status := if stop r.2.length then "stopped" else "completed" } }, r.2,
        { success := true, error := none, total_requested := dois.length
          downloaded := r.1.progress.downloaded, failed := r.1.progress.failed
          skipped := r.1.progress.skipped })) := by
  have hemp : dois.isEmpty = false := by
    cases dois
    · exact absurd rfl hne
    · rfl
  simp only [download_papers, process_dois, hload, hemp, Bool.false_eq_true, if_false]

/-- C7: the stop flag is read before each identifier; when it reads false
for the first `k` identifiers and true at the next read, the batch
attempts exactly the first `k` identifiers, finishes with status
`stopped`, increments `downloaded + failed` exactly `k` times, reports no
skips, and leaves the ledger membership of every unattempted identifier
unchanged. -/
theorem download_papers_stop_semantics (stop : Nat → Bool) (outcome : Nat → AttemptOutcome)
    (st : DownloaderState) (lines : List String) (outputFolder : String)
    (dois : List String) (k : Nat)
    (hload : (load_dois st.downloaded_dois lines).1 = dois)
    (hne : dois ≠ [])
    (hk : k ≤ dois.length)
    (hrun : ∀ j, j < k → stop j = false)
    (hstop : stop k = true) :
    (download_papers stop outcome st lines outputFolder).2.1 = dois.take k ∧
    (download_papers stop outcome st lines outputFolder).1.progress.status = "stopped" ∧
    (download_papers stop outcome st lines outputFolder).1.progress.downloaded +
      (download_papers stop outcome st lines outputFolder).1.progress.failed = k ∧
    (download_papers stop outcome st lines outputFolder).2.2.skipped = 0 ∧
    (∀ d, d ∈ dois.drop k → d ∉ dois.take k →
      ((d ∈ (download_papers stop outcome st lines outputFolder).1.downloaded_dois ↔
          d ∈ st.downloaded_dois) ∧
       (d ∈ (download_papers stop outcome st lines outputFolder).1.failed_dois ↔
          d ∈ st.failed_dois))) := by
  have hlen : (dois.take k).length = k := by
    rw [List.length_take]
    omega
  have hsplit : ∀ st0 : DownloaderState,
      processLoop stop outcome dois 0 st0 = (runAll outcome (dois.take k) 0 st0, dois.take k) := by
    intro st0
    nth_rewrite 1 [← List.take_append_drop k dois]
    refine processLoop_runAll stop outcome (dois.take k) (dois.drop k) 0 st0 ?_ ?_
    · intro j hj
      rw [hlen] at hj
      simpa using hrun j hj
    · rw [hlen]
      simpa using hstop
  rw [download_papers_eq stop outcome st lines outputFolder dois hload hne]
  simp only [hsplit, hlen, hstop, if_true]
  refine ⟨trivial, trivial, ?_, ?_, ?_⟩
  · have h := runAll_counters outcome (dois.take k) 0
      { downloaded_dois := st.downloaded_dois
        failed_dois := st.failed_dois
        progress :=
          { current := 0, total := dois.length, downloaded := 0, failed := 0, skipped := 0
            current_doi := "", status := "processing", output_folder := outputFolder } }
    simpa [hlen] using h.1
  · have h := runAll_counters outcome (dois.take k) 0
      { downloaded_dois := st.downloaded_dois
        failed_dois := st.failed_dois
        progress :=
          { current := 0, total := dois.length, downloaded := 0, failed := 0, skipped := 0
            current_doi := "", status := "processing", output_folder := outputFolder } }
    simpa using h.2
  · intro d hdrop htake
    have h := runAll_sets_outside outcome (dois.take k) 0
      { downloaded_dois := st.downloaded_dois
        failed_dois := st.failed_dois
        progress :=
          { current := 0, total := dois.length, downloaded := 0, failed := 0, skipped := 0
            current_doi := "", status := "processing", output_folder := outputFolder } }
      d htake
    exact ⟨h.1, h.2⟩

/-- Witness for C7: five identifiers, flag raised after the 2nd completes —
exactly 2 are attempted, the batch ends `stopped`, and the other 3 touch
neither ledger set nor the skipped counter. -/
theorem download_papers_stop_semantics_witness :
    (download_papers (fun i => decide (2 ≤ i)) (fun _ => .ok) ⟨∅, ∅, {}⟩
        ["10.1000/a1", "10.1000/a2", "10.1000/a3", "10.1000/a4", "10.1000/a5"] "out").2.1 =
      (["10.1000/a1", "10.1000/a2", "10.1000/a3", "10.1000/a4", "10.1000/a5"]).take 2 ∧
    (download_papers (fun i => decide (2 ≤ i)) (fun _ => .ok) ⟨∅, ∅, {}⟩
        ["10.1000/a1", "10.1000/a2", "10.1000/a3", "10.1000/a4", "10.1000/a5"] "out").1.progress.status =
      "stopped" ∧
    (download_papers (fun i => decide (2 ≤ i)) (fun _ => .ok) ⟨∅, ∅, {}⟩
        ["10.1000/a1", "10.1000/a2", "10.1000/a3", "10.1000/a4", "10.1000/a5"] "out").1.progress.downloaded +
      (download_papers (fun i => decide (2 ≤ i)) (fun _ => .ok) ⟨∅, ∅, {}⟩
        ["10.1000/a1", "10.1000/a2", "10.1000/a3", "10.1000/a4", "10.1000/a5"] "out").1.progress.failed = 2 ∧
    (download_papers (fun i => decide (2 ≤ i)) (fun _ => .ok) ⟨∅, ∅, {}⟩
        ["10.1000/a1", "10.1000/a2", "10.1000/a3", "10.1000/a4", "10.1000/a5"] "out").2.2.skipped = 0 ∧
    (∀ d, d ∈ (["10.1000/a1", "10.1000/a2", "10.1000/a3", "10.1000/a4", "10.1000/a5"]).drop 2 →
      d ∉ (["10.1000/a1", "10.1000/a2", "10.1000/a3", "10.1000/a4", "10.1000/a5"]).take 2 →
      ((d ∈ (download_papers (fun i => decide (2 ≤ i)) (fun _ => .ok) ⟨∅, ∅, {}⟩
          ["10.1000/a1", "10.1000/a2", "10.1000/a3", "10.1000/a4", "10.1000/a5"] "out").1.downloaded_dois ↔
        d ∈ (⟨∅, ∅, {}⟩ : DownloaderState).downloaded_dois) ∧
       (d ∈ (download_papers (fun i => decide (2 ≤ i)) (fun _ => .ok) ⟨∅, ∅, {}⟩
          ["10.1000/a1", "10.1000/a2", "10.1000/a3", "10.1000/a4", "10.1000/a5"] "out").1.failed_dois ↔
        d ∈ (⟨∅, ∅, {}⟩ : DownloaderState).failed_dois))) :=
  download_papers_stop_semantics (fun i => decide (2 ≤ i)) (fun _ => .ok) ⟨∅, ∅, {}⟩
    ["10.1000/a1", "10.1000/a2", "10.1000/a3", "10.1000/a4", "10.1000/a5"] "out"
    ["10.1000/a1", "10.1000/a2", "10.1000/a3", "10.1000/a4", "10.1000/a5"] 2
    (by decide) (by decide) (by decide) (by decide) (by decide)

/-- C5 counterexample: an identifier already in the exhausted set that
resolves successfully in the next batch ends up in BOTH ledger sets — it
is not moved from exhausted to resolved, and mutual exclusion fails. -/
theorem resolved_exhausted_overlap :
    "10.1000/xyz123" ∈ (download_papers (fun _ => false) (fun _ => .ok)
        ⟨∅, {"10.1000/xyz123"}, {}⟩ ["10.1000/xyz123"] "out").1.downloaded_dois ∧
    "10.1000/xyz123" ∈ (download_papers (fun _ => false) (fun _ => .ok)
        ⟨∅, {"10.1000/xyz123"}, {}⟩ ["10.1000/xyz123"] "out").1.failed_dois := by
  constructor
  · decide
  · decide

/-- C5 as amended: the batch driver only ever ADDS to the two ledger sets
(a success inserts into resolved without discarding the exhausted entry,
a failure inserts into exhausted), so membership persists through any
batch and the two sets are not kept mutually exclusive. -/
theorem ledger_membership_persists (stop : Nat → Bool) (outcome : Nat → AttemptOutcome)
    (st : DownloaderState) (lines : List String) (outputFolder : String) (d : String) :
    (d ∈ st.failed_dois →
      d ∈ (download_papers stop outcome st lines outputFolder).1.failed_dois) ∧
    (d ∈ st.downloaded_dois →
      d ∈ (download_papers stop outcome st lines outputFolder).1.downloaded_dois) := by
  by_cases hemp : (load_dois st.downloaded_dois lines).1.isEmpty = true
  · constructor <;> intro hm <;> simpa [download_papers, hemp] using hm
  · have hne : (load_dois st.downloaded_dois lines).1 ≠ [] := by
      intro h
      exact hemp (by simp [h])
    rw [download_papers_eq stop outcome st lines outputFolder
      (load_dois st.downloaded_dois lines).1 rfl hne]
    constructor
    · intro hm
      simpa using (processLoop_sets_mono stop outcome (load_dois st.downloaded_dois lines).1 0
        { downloaded_dois := st.downloaded_dois
          failed_dois := st.failed_dois
          progress :=
            { current := 0, total := (load_dois st.downloaded_dois lines).1.length,
              downloaded := 0, failed := 0, skipped := 0
              current_doi := "", status := "processing", output_folder := outputFolder } }
        d).1 hm
    · intro hm
      simpa using (processLoop_sets_mono stop outcome (load_dois st.downloaded_dois lines).1 0
        { downloaded_dois := st.downloaded_dois
          failed_dois := st.failed_dois
          progress :=
            { current := 0, total := (load_dois st.downloaded_dois lines).1.length,
              downloaded := 0, failed := 0, skipped := 0
              current_doi := "", status := "processing", output_folder := outputFolder } }
        d).2 hm

/-- Witness for the amended C5 statement: a concrete exhausted identifier is
still exhausted after a batch in which it succeeds. -/
theorem ledger_membership_persists_witness :
    "10.1000/xyz123" ∈ (download_papers (fun _ => false) (fun _ => .ok)
        ⟨∅, {"10.1000/xyz123"}, {}⟩ ["10.1000/xyz123"] "out").1.failed_dois :=
  (ledger_membership_persists (fun _ => false) (fun _ => .ok)
      ⟨∅, {"10.1000/xyz123"}, {}⟩ ["10.1000/xyz123"] "out" "10.1000/xyz123").1 (by decide)

/-- C3, evaluated at the failing input: with `10.1000/xyz123` already in
the resolved ledger, loading the list counts one skip and the identifier
is never attempted — but `download_papers` then replaces the progress
record with a fresh one, so the batch summary reports `skipped = 0`
instead of 1. -/
theorem skipped_count_discarded :
    (load_dois {"10.1000/xyz123"} ["10.1000/xyz123", "10.2000/abc1"]).2 = 1 ∧
    (download_papers (fun _ => false) (fun _ => .ok) ⟨{"10.1000/xyz123"}, ∅, {}⟩
        ["10.1000/xyz123", "10.2000/abc1"] "out").2.1 = ["10.2000/abc1"] ∧
    "10.1000/xyz123" ∉ (download_papers (fun _ => false) (fun _ => .ok) ⟨{"10.1000/xyz123"}, ∅, {}⟩
        ["10.1000/xyz123", "10.2000/abc1"] "out").2.1 ∧
    (download_papers (fun _ => false) (fun _ => .ok) ⟨{"10.1000/xyz123"}, ∅, {}⟩
        ["10.1000/xyz123", "10.2000/abc1"] "out").2.2.skipped = 0 := by
  refine ⟨?_, ?_, ?_, ?_⟩ <;> decide
